import Mathlib

/-!
Shallow embedding of the core of hal-simplicity (a CLI for Simplicity programs
on Elements-style chains), translated from the Rust sources:
  - src/hal_simplicity/src/hal_simplicity.rs   (Program resolver, address derivation)
  - src/hal_simplicity/src/cmd/simplicity/sighash.rs (UTXO descriptor parser, sighash assembler)

External crates (rust-simplicity, rust-elements, secp256k1, rust-bitcoin) are the
boundary of the embedding: each external function the repository calls is a field
of an explicit interface structure over which theorems quantify, except for small
deterministic external helpers (hex decoding, decimal u32 parsing, confidential
commitment length/prefix validation) which are embedded concretely because the
repository's observable control flow depends on their exact outcomes.
-/

deriving instance DecidableEq for Except

namespace HalSimplicity

/-! ## Hex decoding

Models `Vec::from_hex` from the hex-conservative crate as used throughout the
sources: the input must consist of an even number of hex digits (either case);
each pair of digits yields one byte. -/

/-- Value of a single hex digit (codepoints of 0-9, a-f, A-F), or none for a
non-hex character. -/
def hexVal (c : Char) : Option Nat :=
  if 48 ≤ c.toNat ∧ c.toNat ≤ 57 then some (c.toNat - 48)
  else if 97 ≤ c.toNat ∧ c.toNat ≤ 102 then some (c.toNat - 87)
  else if 65 ≤ c.toNat ∧ c.toNat ≤ 70 then some (c.toNat - 55)
  else none

/-- Decode a list of characters as hex bytes; fails on odd length or any
non-hex character. -/
def hexDecode : List Char → Option (List Nat)
  | [] => some []
  | [_] => none
  | c1 :: c2 :: rest =>
    match hexVal c1, hexVal c2, hexDecode rest with
    | some h, some l, some tail => some ((16 * h + l) :: tail)
    | _, _, _ => none

/-- Hex decoding of a string (its character data). -/
def hexDecodeStr (s : String) : Option (List Nat) :=
  hexDecode s.data

theorem hexDecode_length : ∀ {l : List Char} {bs : List Nat},
    hexDecode l = some bs → l.length = 2 * bs.length
  | [], bs, h => by
    simp [hexDecode] at h
    simp [← h]
  | [_], bs, h => by simp [hexDecode] at h
  | c1 :: c2 :: rest, bs, h => by
    simp only [hexDecode] at h
    split at h
    · next v1 v2 tail h1 h2 h3 =>
      have ih := hexDecode_length h3
      simp only [Option.some.injEq] at h
      subst h
      simp only [List.length_cons, ih]
      omega
    · exact absurd h (by simp)

/-- A character accepted by `hexVal` is a one-byte (ASCII) character. -/
theorem hexVal_ascii {c : Char} {v : Nat} (h : hexVal c = some v) : c.toNat < 128 := by
  unfold hexVal at h
  split at h
  · next hc => omega
  · split at h
    · next hc => omega
    · split at h
      · next hc => omega
      · exact absurd h (by simp)

/-! ## Program resolver

Translated from `src/hal_simplicity/src/hal_simplicity.rs`.  The rust-simplicity
functions consumed there (`CommitNode::from_str`, `CommitNode::decode`,
`RedeemNode::from_str`, and the identity-hash accessors `cmr`/`amr`/`ihr`) are
external-library calls; they appear as fields of `ProgLib` and theorems
quantify over every possible behavior of those fields.  `C`, `R`, `E` are the
carrier types for commitment-time programs, redemption-time programs, and
parse errors. -/

/-- Interface to the external rust-simplicity library as consumed by
`Program::from_str` and the identity accessors. -/
structure ProgLib (C R E : Type) where
  commitFromStr : String → Except E C
  commitDecode : List Nat → Option C
  redeemFromStr : String → String → Except E R
  cmr : C → List Nat
  amr : R → List Nat
  ihr : R → List Nat

/-- The two-stage program value: `commit_prog` always present, `redeem_prog`
present only when witness data was supplied and associated successfully.
Mirrors `struct Program` in hal_simplicity.rs. -/
structure Program (C R : Type) where
  commit_prog : C
  redeem_prog : Option R

/-- The witness-handling tail of `Program::from_str` (hal_simplicity.rs lines
52-55): `wit_hex.map(|hex| RedeemNode::from_str(prog_b64, hex)).transpose()?`. -/
def Program.withWitness {C R E : Type} (L : ProgLib C R E) (prog_b64 : String)
    (wit_hex : Option String) (commit_prog : C) : Except E (Program C R) :=
  match wit_hex with
  | none => .ok ⟨commit_prog, none⟩
  | some hex =>
    match L.redeemFromStr prog_b64 hex with
    | .ok r => .ok ⟨commit_prog, some r⟩
    | .error e => .error e

/-- Translation of `Program::from_str` (hal_simplicity.rs lines 33-56): try
base64 first via `CommitNode::from_str`; on failure try to hex-decode the text
and bit-decode it via `CommitNode::decode`; if that also fails, return the
original base64-stage error. -/
def Program.from_str {C R E : Type} (L : ProgLib C R E) (prog_b64 : String)
    (wit_hex : Option String) : Except E (Program C R) :=
  match L.commitFromStr prog_b64 with
  | .ok prog => Program.withWitness L prog_b64 wit_hex prog
  | .error e =>
    match hexDecodeStr prog_b64 with
    | some bytes =>
      match L.commitDecode bytes with
      | some node => Program.withWitness L prog_b64 wit_hex node
      | none => .error e
    | none => .error e

/-- Accessor `Program::cmr`. -/
def Program.cmrOf {C R E : Type} (L : ProgLib C R E) (p : Program C R) : List Nat :=
  L.cmr p.commit_prog

/-- Accessor `Program::amr`: present only when the redemption-time program is. -/
def Program.amrOf {C R E : Type} (L : ProgLib C R E) (p : Program C R) : Option (List Nat) :=
  p.redeem_prog.map L.amr

/-- Accessor `Program::ihr`: present only when the redemption-time program is. -/
def Program.ihrOf {C R E : Type} (L : ProgLib C R E) (p : Program C R) : Option (List Nat) :=
  p.redeem_prog.map L.ihr

/-! ### Fixture constants from the test `fixed_hex_vector_1` -/

/-- The minimal known-good fixture program of `fixed_hex_vector_1`. -/
def fixtureB64 : String := "zSQIS29W33fvVt9371bfd+9W33fvVt9371bfd+9W33fvVt93hgGA"

/-- Documented commitment identity (CMR) of the fixture. -/
def fixtureCmr : List Nat :=
  (hexDecodeStr "abdd773fc7a503908739b4a63198416fdd470948830cb5a6516b98fe0a3bfa85").getD []

/-- Documented annotated identity (AMR) of the fixture with empty witness. -/
def fixtureAmr : List Nat :=
  (hexDecodeStr "1362ee53ae75218ed51dc4bd46cdbfa585f934ac6c6c3ff787e27dce91ccd80b").getD []

/-- Documented input hash (IHR) of the fixture with empty witness. -/
def fixtureIhr : List Nat :=
  (hexDecodeStr "251c6778129e0f12da3f2388ab30184e815e9d9456b5931e54802a6715d9ca42").getD []

/-! ### Concrete instantiations of the external program library, used by the
witness theorems to evaluate the resolver on concrete inputs. -/

/-- A library behavior in which base64 parsing succeeds and the fixture's
documented identities are returned. -/
def toyProgLib : ProgLib Nat Nat Nat where
  commitFromStr := fun _ => .ok 0
  commitDecode := fun _ => none
  redeemFromStr := fun _ _ => .ok 1
  cmr := fun _ => fixtureCmr
  amr := fun _ => fixtureAmr
  ihr := fun _ => fixtureIhr

/-- A library behavior in which base64 parsing always fails (with error 7) and
the bit-level decoder also rejects every byte string. -/
def toyProgLibHex : ProgLib Nat Nat Nat where
  commitFromStr := fun _ => .error 7
  commitDecode := fun _ => none
  redeemFromStr := fun _ _ => .ok 1
  cmr := fun _ => []
  amr := fun _ => []
  ihr := fun _ => []

/-- A library behavior in which the redemption-time parse always fails. -/
def toyProgLibBadWit : ProgLib Nat Nat Nat where
  commitFromStr := fun _ => .ok 0
  commitDecode := fun _ => none
  redeemFromStr := fun _ _ => .error 3
  cmr := fun _ => []
  amr := fun _ => []
  ihr := fun _ => []

/-- C1 (amended: the fixture is a 52-character base64 string, not 51):
resolving the fixture with the empty-string witness succeeds and yields the
documented CMR, AMR and IHR; resolving it with no witness succeeds with the
same CMR and no AMR or IHR.  The external library's behavior at the fixture is
given by the hypotheses, which record exactly what the repository's own test
`fixed_hex_vector_1` asserts about it. -/
theorem fixture_resolution_identities {C R E : Type} (L : ProgLib C R E) (p : C) (r : R)
    (hcommit : L.commitFromStr fixtureB64 = .ok p)
    (hcmr : L.cmr p = fixtureCmr)
    (hredeem : L.redeemFromStr fixtureB64 "" = .ok r)
    (hamr : L.amr r = fixtureAmr)
    (hihr : L.ihr r = fixtureIhr) :
    fixtureB64.length = 52 ∧
    Program.from_str L fixtureB64 (some "") = .ok ⟨p, some r⟩ ∧
    Program.cmrOf L ⟨p, some r⟩ = fixtureCmr ∧
    Program.amrOf L ⟨p, some r⟩ = some fixtureAmr ∧
    Program.ihrOf L ⟨p, some r⟩ = some fixtureIhr ∧
    Program.from_str L fixtureB64 none = .ok ⟨p, none⟩ ∧
    Program.cmrOf L ⟨p, none⟩ = fixtureCmr ∧
    Program.amrOf L ⟨p, none⟩ = none ∧
    Program.ihrOf L ⟨p, none⟩ = none := by
  refine ⟨by decide, ?_, ?_, ?_, ?_, ?_, ?_, ?_, ?_⟩ <;>
    simp [Program.from_str, Program.withWitness, Program.cmrOf, Program.amrOf,
      Program.ihrOf, hcommit, hcmr, hredeem, hamr, hihr]

/-- Witness for C1: the theorem evaluated at a concrete library behavior. -/
theorem fixture_resolution_identities_witness :
    fixtureB64.length = 52 ∧
    Program.from_str toyProgLib fixtureB64 (some "") = .ok ⟨0, some 1⟩ ∧
    Program.cmrOf toyProgLib ⟨0, some 1⟩ = fixtureCmr ∧
    Program.amrOf toyProgLib ⟨0, some 1⟩ = some fixtureAmr ∧
    Program.ihrOf toyProgLib ⟨0, some 1⟩ = some fixtureIhr ∧
    Program.from_str toyProgLib fixtureB64 none = .ok ⟨0, none⟩ ∧
    Program.cmrOf toyProgLib ⟨0, none⟩ = fixtureCmr ∧
    Program.amrOf toyProgLib ⟨0, none⟩ = none ∧
    Program.ihrOf toyProgLib ⟨0, none⟩ = none :=
  fixture_resolution_identities toyProgLib 0 1 rfl rfl rfl rfl rfl

/-- Counterexample for C1 as stated: the fixture base64 string has 52
characters, not 51. -/
theorem fixture_not_51_characters : ¬ (fixtureB64.length = 51) := by decide

/-- C2: resolution tries base64 first (on success the hex fallback is never
consulted: the result is the witness-handling tail at the base64 node, whatever
`commitDecode` does); only on base64 failure is the text hex-decoded and
bit-decoded; and when both the base64 parse and the hex fallback fail (either
the text is not hex, or the bytes do not decode), the returned error is exactly
the original base64-stage error. -/
theorem from_str_fallback_order {C R E : Type} (L : ProgLib C R E) (t : String)
    (w : Option String) :
    (∀ p, L.commitFromStr t = .ok p →
      Program.from_str L t w = Program.withWitness L t w p) ∧
    (∀ e bytes node, L.commitFromStr t = .error e → hexDecodeStr t = some bytes →
      L.commitDecode bytes = some node →
      Program.from_str L t w = Program.withWitness L t w node) ∧
    (∀ e, L.commitFromStr t = .error e → hexDecodeStr t = none →
      Program.from_str L t w = .error e) ∧
    (∀ e bytes, L.commitFromStr t = .error e → hexDecodeStr t = some bytes →
      L.commitDecode bytes = none →
      Program.from_str L t w = .error e) := by
  refine ⟨?_, ?_, ?_, ?_⟩
  · intro p hp
    simp [Program.from_str, hp]
  · intro e bytes node he hb hn
    simp [Program.from_str, he, hb, hn]
  · intro e he hb
    simp [Program.from_str, he, hb]
  · intro e bytes he hb hn
    simp [Program.from_str, he, hb, hn]

/-- Witness for C2: concrete base64-success, non-hex-failure and
bit-decode-failure inputs. -/
theorem from_str_fallback_order_witness :
    Program.from_str toyProgLib "x" none = .ok ⟨0, none⟩ ∧
    Program.from_str toyProgLibHex "zz" none = .error 7 ∧
    Program.from_str toyProgLibHex "ab" none = .error 7 :=
  ⟨((from_str_fallback_order toyProgLib "x" none).1 0 rfl).trans rfl,
   (from_str_fallback_order toyProgLibHex "zz" none).2.2.1 7 rfl (by decide),
   (from_str_fallback_order toyProgLibHex "ab" none).2.2.2 7 [171] rfl (by decide) rfl⟩

/-- C3: with no witness text the resolved program's redemption component is
`none` unconditionally (so the AMR and IHR accessors yield `none`), and with a
witness text whose redemption-time parse fails the whole resolution is an
error, never a program with only the commitment part populated. -/
theorem from_str_witness_handling {C R E : Type} (L : ProgLib C R E) (t : String) :
    (∀ q, Program.from_str L t none = .ok q →
      q.redeem_prog = none ∧ Program.amrOf L q = none ∧ Program.ihrOf L q = none) ∧
    (∀ w e, L.redeemFromStr t w = .error e →
      ∀ q, Program.from_str L t (some w) ≠ .ok q) := by
  constructor
  · intro q hq
    unfold Program.from_str at hq
    have hred : q.redeem_prog = none := by
      split at hq
      · next hp =>
        simp [Program.withWitness] at hq
        simp [← hq]
      · split at hq
        · split at hq
          · simp [Program.withWitness] at hq
            simp [← hq]
          · exact absurd hq (by simp)
        · exact absurd hq (by simp)
    exact ⟨hred, by simp [Program.amrOf, hred], by simp [Program.ihrOf, hred]⟩
  · intro w e he q hq
    unfold Program.from_str at hq
    split at hq
    · next hp => simp [Program.withWitness, he] at hq
    · split at hq
      · split at hq
        · simp [Program.withWitness, he] at hq
        · exact absurd hq (by simp)
      · exact absurd hq (by simp)

/-- Witness for C3: a concrete no-witness resolution and a concrete failing
redemption-time parse. -/
theorem from_str_witness_handling_witness :
    ((⟨0, none⟩ : Program Nat Nat).redeem_prog = none ∧
      Program.amrOf toyProgLib ⟨0, none⟩ = none ∧
      Program.ihrOf toyProgLib ⟨0, none⟩ = none) ∧
    Program.from_str toyProgLibBadWit "x" (some "w") ≠ .ok ⟨0, some 1⟩ :=
  ⟨(from_str_witness_handling toyProgLib "x").1 ⟨0, none⟩ rfl,
   (from_str_witness_handling toyProgLibBadWit "x").2 "w" 3 rfl ⟨0, some 1⟩⟩

/-! ## UTXO descriptor parser

Translated from `parse_elements_utxo` in
`src/hal_simplicity/src/cmd/simplicity/sighash.rs`.  Rust's `str::split(':')`
and `str::len()` (UTF-8 byte length) are embedded concretely; the external
confidential-commitment validators (`Asset::from_commitment`,
`Value::from_commitment` of rust-elements, backed by secp256k1-zkp
`Generator::from_slice` / `PedersenCommitment::from_slice`) accept exactly a
33-byte string with prefix byte 0x0a/0x0b (assets) or 0x08/0x09 (values).
`bitcoin::Amount::from_str_in(_, Denomination::Bitcoin)` composed with
`to_sat` is an external decimal parser and appears as the `AmountLib` field. -/

/-- Rust `str::split(':')` over character data: k colons yield k+1 fields,
empty fields preserved. -/
def splitColon : List Char → List (List Char)
  | [] => [[]]
  | c :: rest =>
    let r := splitColon rest
    if c = ':' then [] :: r
    else (c :: r.headD []) :: r.tail

/-- UTF-8 size in bytes of one character. -/
def charSize (c : Char) : Nat :=
  if c.toNat < 128 then 1
  else if c.toNat < 2048 then 2
  else if c.toNat < 65536 then 3
  else 4

/-- Rust `str::len()`: UTF-8 byte length of the character data. -/
def byteLen (l : List Char) : Nat := (l.map charSize).sum

theorem hexDecode_byteLen : ∀ {l : List Char} {bs : List Nat},
    hexDecode l = some bs → byteLen l = l.length
  | [], _, _ => by simp [byteLen]
  | [_], _, h => by simp [hexDecode] at h
  | c1 :: c2 :: rest, bs, h => by
    simp only [hexDecode] at h
    split at h
    · next v1 v2 tail h1 h2 h3 =>
      have ih := hexDecode_byteLen h3
      have a1 := hexVal_ascii h1
      have a2 := hexVal_ascii h2
      simp only [byteLen, List.map_cons, List.sum_cons, charSize, if_pos a1, if_pos a2] at ih ⊢
      simp only [List.length_cons, ih]
      omega
    · exact absurd h (by simp)

/-- Error value of the command layer: a stage context and a rendered message
(messages coming from external libraries are modelled as the empty string). -/
structure Error where
  context : String
  error : String
deriving DecidableEq, Repr

/-- The `elements::confidential::Asset` alternatives produced by the parser. -/
inductive Asset where
  | explicit (id : List Nat)
  | confidential (commitment : List Nat)
deriving DecidableEq, Repr

/-- The `elements::confidential::Value` alternatives produced by the parser. -/
inductive Value where
  | explicit (sats : Nat)
  | confidential (commitment : List Nat)
deriving DecidableEq, Repr

/-- One spent-output record (`ElementsUtxo` of rust-simplicity). -/
structure ElementsUtxo where
  script_pubkey : List Nat
  asset : Asset
  value : Value
deriving DecidableEq, Repr

/-- Interface to the external decimal amount parser:
`Amount::from_str_in(s, Denomination::Bitcoin)` then `to_sat()`. -/
structure AmountLib where
  fromStrBtc : List Char → Option Nat

/-- Turn an optional external result into the command layer's error type. -/
def ofOption {α : Type} : Option α → Error → Except Error α
  | some a, _ => .ok a
  | none, e => .error e

/-- The asset-field alternative of `parse_elements_utxo` (sighash.rs lines
43-53): a field of byte length exactly 64 is parsed as an explicit 32-byte
asset id; anything else is hex-decoded and validated as a 33-byte
confidential asset commitment. -/
def parseAssetField (b : List Char) : Except Error Asset :=
  if byteLen b = 64 then
    match hexDecode b with
    | some bs => if bs.length = 32 then .ok (.explicit bs)
                 else .error ⟨"parsing asset hex", ""⟩
    | none => .error ⟨"parsing asset hex", ""⟩
  else
    match hexDecode b with
    | some cb =>
      if cb.length = 33 ∧ (cb.headD 0 = 10 ∨ cb.headD 0 = 11) then .ok (.confidential cb)
      else .error ⟨"decoding asset commitment", ""⟩
    | none => .error ⟨"parsing asset commitment hex", ""⟩

/-- The value-field alternative of `parse_elements_utxo` (sighash.rs lines
56-65): first a decimal parse as BTC, and only on its failure a hex decode
validated as a 33-byte confidential value commitment. -/
def parseValueField (A : AmountLib) (c : List Char) : Except Error Value :=
  match A.fromStrBtc c with
  | some n => .ok (.explicit n)
  | none =>
    match hexDecode c with
    | some cb =>
      if cb.length = 33 ∧ (cb.headD 0 = 8 ∨ cb.headD 0 = 9) then .ok (.confidential cb)
      else .error ⟨"decoding value commitment", ""⟩
    | none => .error ⟨"parsing value commitment hex", ""⟩

/-- The body of `parse_elements_utxo` once the descriptor has split into its
three fields: scriptPubKey hex, then asset, then value. -/
def parseFields (A : AmountLib) (a b c : List Char) : Except Error ElementsUtxo :=
  match hexDecode a with
  | none => .error ⟨"parsing scriptPubKey hex", ""⟩
  | some script =>
    match parseAssetField b with
    | .error e => .error e
    | .ok asset =>
      match parseValueField A c with
      | .error e => .error e
      | .ok value => .ok ⟨script, asset, value⟩

/-- Translation of `parse_elements_utxo` (sighash.rs lines 30-72). -/
def parse_elements_utxo (A : AmountLib) (s : String) : Except Error ElementsUtxo :=
  match splitColon s.data with
  | [a, b, c] => parseFields A a b c
  | _ => .error ⟨"parsing input UTXO", "expected format <scriptPubKey>:<asset>:<value>"⟩

theorem parse_elements_utxo_split {A : AmountLib} {s : String} {a b c : List Char}
    (hsplit : splitColon s.data = [a, b, c]) :
    parse_elements_utxo A s = parseFields A a b c := by
  unfold parse_elements_utxo
  rw [hsplit]

/-- Success characterization of the field-level parser. -/
theorem parseFields_ok_iff {A : AmountLib} {a b c : List Char} {u : ElementsUtxo} :
    parseFields A a b c = .ok u ↔
      ∃ as av vv, hexDecode a = some as ∧ parseAssetField b = .ok av ∧
        parseValueField A c = .ok vv ∧ u = ⟨as, av, vv⟩ := by
  unfold parseFields
  constructor
  · intro h
    rcases ha : hexDecode a with _ | as <;> rw [ha] at h
    · exact absurd h (by simp)
    · rcases hb : parseAssetField b with e | av <;> rw [hb] at h
      · exact absurd h (by simp)
      · rcases hc : parseValueField A c with e | vv <;> rw [hc] at h
        · exact absurd h (by simp)
        · exact ⟨as, av, vv, rfl, rfl, rfl, by simpa using h.symm⟩
  · rintro ⟨as, av, vv, ha, hb, hc, rfl⟩
    rw [ha, hb, hc]

theorem parseAssetField_explicit {b : List Char} {bs : List Nat}
    (hlen : b.length = 64) (hhex : hexDecode b = some bs) :
    parseAssetField b = .ok (.explicit bs) := by
  have hb : byteLen b = 64 := (hexDecode_byteLen hhex).trans hlen
  have hlen32 : bs.length = 32 := by
    have := hexDecode_length hhex
    omega
  unfold parseAssetField
  rw [if_pos hb, hhex]
  simp [hlen32]

theorem parseAssetField_ok_64 {b : List Char} {u : Asset} (hlen : b.length = 64)
    (h : parseAssetField b = .ok u) :
    ∃ bs, hexDecode b = some bs ∧ u = .explicit bs := by
  unfold parseAssetField at h
  split at h
  · rcases hh : hexDecode b with _ | bs <;> rw [hh] at h <;> dsimp only at h
    · exact absurd h (by simp)
    · split at h
      · exact ⟨bs, rfl, by simpa using h.symm⟩
      · exact absurd h (by simp)
  · next hby =>
    rcases hh : hexDecode b with _ | cb <;> rw [hh] at h
    · exact absurd h (by simp)
    · exact absurd ((hexDecode_byteLen hh).trans hlen) hby

theorem parseAssetField_ok_not64 {b : List Char} {u : Asset} (hlen : b.length ≠ 64)
    (h : parseAssetField b = .ok u) :
    ∃ cb, hexDecode b = some cb ∧ cb.length = 33 ∧ u = .confidential cb := by
  unfold parseAssetField at h
  split at h
  · next hby =>
    rcases hh : hexDecode b with _ | bs <;> rw [hh] at h
    · exact absurd h (by simp)
    · exact absurd ((hexDecode_byteLen hh).symm.trans hby) hlen
  · rcases hh : hexDecode b with _ | cb <;> rw [hh] at h <;> dsimp only at h
    · exact absurd h (by simp)
    · split at h
      · next hcond => exact ⟨cb, rfl, hcond.1, by simpa using h.symm⟩
      · exact absurd h (by simp)

theorem parseAssetField_not64_badlen {b : List Char} {bs : List Nat}
    (hlen : b.length ≠ 64) (hhex : hexDecode b = some bs) (hbs : bs.length ≠ 33)
    {u : Asset} : parseAssetField b ≠ .ok u := by
  intro h
  rcases parseAssetField_ok_not64 hlen h with ⟨cb, hcb, hl, _⟩
  rw [hhex] at hcb
  exact hbs (Option.some.inj hcb ▸ hl)

theorem parseValueField_decimal {A : AmountLib} {c : List Char} {n : Nat}
    (h : A.fromStrBtc c = some n) :
    parseValueField A c = .ok (.explicit n) := by
  unfold parseValueField
  rw [h]

theorem parseValueField_ok_nodecimal {A : AmountLib} {c : List Char} {u : Value}
    (h0 : A.fromStrBtc c = none) (h : parseValueField A c = .ok u) :
    ∃ cb, hexDecode c = some cb ∧ cb.length = 33 ∧ u = .confidential cb := by
  unfold parseValueField at h
  rw [h0] at h
  dsimp only at h
  rcases hh : hexDecode c with _ | cb <;> rw [hh] at h <;> dsimp only at h
  · exact absurd h (by simp)
  · split at h
    · next hcond => exact ⟨cb, rfl, hcond.1, by simpa using h.symm⟩
    · exact absurd h (by simp)

theorem parseValueField_nodecimal_badlen {A : AmountLib} {c : List Char}
    {cb : List Nat} (h0 : A.fromStrBtc c = none) (hhex : hexDecode c = some cb)
    (hl : cb.length ≠ 33) {u : Value} : parseValueField A c ≠ .ok u := by
  intro h
  rcases parseValueField_ok_nodecimal h0 h with ⟨cb2, hcb, hl2, _⟩
  rw [hhex] at hcb
  exact hl (Option.some.inj hcb ▸ hl2)

/-- C4: in a three-field descriptor, an asset field of exactly 64 hex
characters always yields an explicit asset identifier (never a confidential
commitment); an asset field not 64 characters long is hex-decoded and taken as
a confidential commitment, and the parse fails unless it decodes to the fixed
33-byte commitment length. -/
theorem utxo_asset_disambiguation (A : AmountLib) (s : String) (a b c : List Char)
    (hsplit : splitColon s.data = [a, b, c]) :
    (∀ bs as n, b.length = 64 → hexDecode b = some bs → hexDecode a = some as →
      A.fromStrBtc c = some n →
      parse_elements_utxo A s = .ok ⟨as, .explicit bs, .explicit n⟩) ∧
    (∀ u, b.length = 64 → parse_elements_utxo A s = .ok u →
      ∃ bs, hexDecode b = some bs ∧ u.asset = .explicit bs) ∧
    (∀ u, b.length ≠ 64 → parse_elements_utxo A s = .ok u →
      ∃ cb, hexDecode b = some cb ∧ cb.length = 33 ∧ u.asset = .confidential cb) ∧
    (∀ bs u, b.length ≠ 64 → hexDecode b = some bs → bs.length ≠ 33 →
      parse_elements_utxo A s ≠ .ok u) := by
  refine ⟨?_, ?_, ?_, ?_⟩
  · intro bs as n h64 hbs has hn
    rw [parse_elements_utxo_split hsplit, parseFields_ok_iff]
    exact ⟨as, .explicit bs, .explicit n, has, parseAssetField_explicit h64 hbs,
      parseValueField_decimal hn, rfl⟩
  · intro u h64 hok
    rw [parse_elements_utxo_split hsplit, parseFields_ok_iff] at hok
    rcases hok with ⟨as, av, vv, has, hav, hvv, rfl⟩
    rcases parseAssetField_ok_64 h64 hav with ⟨bs, hbs, rfl⟩
    exact ⟨bs, hbs, rfl⟩
  · intro u hne hok
    rw [parse_elements_utxo_split hsplit, parseFields_ok_iff] at hok
    rcases hok with ⟨as, av, vv, has, hav, hvv, rfl⟩
    rcases parseAssetField_ok_not64 hne hav with ⟨cb, hcb, hl, rfl⟩
    exact ⟨cb, hcb, hl, rfl⟩
  · intro bs u hne hbs hlen hok
    rw [parse_elements_utxo_split hsplit, parseFields_ok_iff] at hok
    rcases hok with ⟨as, av, vv, has, hav, hvv, rfl⟩
    exact parseAssetField_not64_badlen hne hbs hlen hav

/-- C5: in a three-field descriptor whose script and asset fields parse, the
value field is first tried as a decimal amount, and a successful decimal parse
always wins (the value is explicit, whatever hex decoding would have given);
only on decimal failure is the field hex-decoded as a confidential value
commitment, which must have the fixed 33-byte commitment length or the parse
fails. -/
theorem utxo_value_disambiguation (A : AmountLib) (s : String) (a b c : List Char)
    (as : List Nat) (av : Asset)
    (hsplit : splitColon s.data = [a, b, c])
    (hscript : hexDecode a = some as)
    (hasset : parseAssetField b = .ok av) :
    (∀ n, A.fromStrBtc c = some n →
      parse_elements_utxo A s = .ok ⟨as, av, .explicit n⟩) ∧
    (∀ u, A.fromStrBtc c = none → parse_elements_utxo A s = .ok u →
      ∃ cb, hexDecode c = some cb ∧ cb.length = 33 ∧ u.value = .confidential cb) ∧
    (∀ cb u, A.fromStrBtc c = none → hexDecode c = some cb → cb.length ≠ 33 →
      parse_elements_utxo A s ≠ .ok u) := by
  refine ⟨?_, ?_, ?_⟩
  · intro n hn
    rw [parse_elements_utxo_split hsplit, parseFields_ok_iff]
    exact ⟨as, av, .explicit n, hscript, hasset, parseValueField_decimal hn, rfl⟩
  · intro u h0 hok
    rw [parse_elements_utxo_split hsplit, parseFields_ok_iff] at hok
    rcases hok with ⟨as2, av2, vv, _, _, hvv, rfl⟩
    rcases parseValueField_ok_nodecimal h0 hvv with ⟨cb, hcb, hl, rfl⟩
    exact ⟨cb, hcb, hl, rfl⟩
  · intro cb u h0 hc hl hok
    rw [parse_elements_utxo_split hsplit, parseFields_ok_iff] at hok
    rcases hok with ⟨as2, av2, vv, _, _, hvv, rfl⟩
    exact parseValueField_nodecimal_badlen h0 hc hl hvv

/-- A concrete decimal parser behavior for the witnesses: only the string 5
parses, as five satoshis. -/
def toyAmountLib : AmountLib where
  fromStrBtc := fun l => if l = ['5'] then some 5 else none

/-- Witness for C4: a concrete descriptor with a 64-hex-character asset field
parses to an explicit asset. -/
theorem utxo_asset_disambiguation_witness :
    parse_elements_utxo toyAmountLib
      "aa:0000000000000000000000000000000000000000000000000000000000000000:5"
      = .ok ⟨[170], .explicit (List.replicate 32 0), .explicit 5⟩ :=
  (utxo_asset_disambiguation toyAmountLib
    "aa:0000000000000000000000000000000000000000000000000000000000000000:5"
    "aa".data
    "0000000000000000000000000000000000000000000000000000000000000000".data
    "5".data (by decide)).1
    (List.replicate 32 0) [170] 5 (by decide) (by decide) (by decide) (by decide)

/-- Witness for C5: a concrete value field that parses as a decimal is
explicit, and a concrete non-decimal hex value field of the wrong commitment
length is rejected. -/
theorem utxo_value_disambiguation_witness :
    parse_elements_utxo toyAmountLib
      "bb:0000000000000000000000000000000000000000000000000000000000000000:5"
      = .ok ⟨[187], .explicit (List.replicate 32 0), .explicit 5⟩ ∧
    parse_elements_utxo toyAmountLib
      "bb:0000000000000000000000000000000000000000000000000000000000000000:aabb"
      ≠ .ok ⟨[187], .explicit (List.replicate 32 0), .explicit 0⟩ :=
  ⟨(utxo_value_disambiguation toyAmountLib
      "bb:0000000000000000000000000000000000000000000000000000000000000000:5"
      "bb".data
      "0000000000000000000000000000000000000000000000000000000000000000".data
      "5".data [187] (.explicit (List.replicate 32 0))
      (by decide) (by decide) (by decide)).1 5 (by decide),
   (utxo_value_disambiguation toyAmountLib
      "bb:0000000000000000000000000000000000000000000000000000000000000000:aabb"
      "bb".data
      "0000000000000000000000000000000000000000000000000000000000000000".data
      "aabb".data [187] (.explicit (List.replicate 32 0))
      (by decide) (by decide) (by decide)).2.2
      [170, 187] ⟨[187], .explicit (List.replicate 32 0), .explicit 0⟩
      (by decide) (by decide) (by decide)⟩

/-! ## Address derivation

Translated from `unspendable_internal_key`, `script_ver`, `taproot_spend_info`
and `elements_address` in `src/hal_simplicity/src/hal_simplicity.rs` (lines
95-131).  The secp256k1 x-only-key validity check behind
`XOnlyPublicKey::from_slice` is embedded concretely (a 32-byte big-endian
x-coordinate below the field size whose curve equation right-hand side is a
quadratic residue, decided by Euler's criterion); the tagged-hash and
EC-tweak primitives behind `TaprootBuilder::finalize` and `Address::p2tr` are
external (spec section 6) and appear as the fields of `ECLib`.  Building the
one-leaf tree (`add_leaf_with_ver(0, ...)` on a fresh builder followed by
`finalize`) has no failure case at this call shape: the single leaf at depth
zero is a complete tree, so the only repository-visible failure branch is the
internal-key construction. -/

/-- The secp256k1 base field size. -/
def secpP : Nat := 2 ^ 256 - 2 ^ 32 - 977

/-- Fuel-driven modular exponentiation by squaring. -/
def powModAux : Nat → Nat → Nat → Nat → Nat
  | 0, _, _, _ => 1
  | fuel + 1, b, e, m =>
    if e = 0 then 1 % m
    else
      let r := powModAux fuel (b * b % m) (e / 2) m
      if e % 2 = 1 then r * b % m else r

/-- Modular exponentiation with enough fuel for any exponent below 2^257. -/
def powMod (b e m : Nat) : Nat := powModAux 257 b e m

/-- Validity of an x-only public key with x-coordinate `x`: the coordinate is
a field element and the curve equation y^2 = x^3 + 7 has a solution (Euler's
criterion).  This is the check behind `XOnlyPublicKey::from_slice`. -/
def isValidXOnly (x : Nat) : Prop :=
  x < secpP ∧ powMod ((x ^ 3 + 7) % secpP) ((secpP - 1) / 2) secpP = 1

instance (x : Nat) : Decidable (isValidXOnly x) := by
  unfold isValidXOnly
  infer_instance

/-- Big-endian byte-string to natural number. -/
def bytesToNat (l : List Nat) : Nat := l.foldl (fun acc b => 256 * acc + b) 0

/-- The fixed, protocol-wide unspendable internal key bytes (hal_simplicity.rs
lines 96-100). -/
def unspendableInternalKeyBytes : List Nat :=
  [0xf5, 0x91, 0x9f, 0xa6, 0x4c, 0xe4, 0x5f, 0x83, 0x06, 0x84, 0x90, 0x72, 0xb2, 0x6c, 0x1b,
   0xfd, 0xd2, 0x93, 0x7e, 0x6b, 0x81, 0x77, 0x47, 0x96, 0xff, 0x37, 0x2b, 0xd1, 0xeb, 0x53,
   0x62, 0xd2]

/-- Translation of `unspendable_internal_key`: `XOnlyPublicKey::from_slice` on
the fixed 32 bytes; `none` models the `.expect` panic branch. -/
def unspendable_internal_key : Option Nat :=
  if unspendableInternalKeyBytes.length = 32 ∧
      isValidXOnly (bytesToNat unspendableInternalKeyBytes)
  then some (bytesToNat unspendableInternalKeyBytes)
  else none

/-- The reserved Simplicity taproot leaf version returned by
`simplicity::leaf_version()`. -/
def leafVersion : Nat := 0xbe

/-- Translation of `script_ver`: the leaf script is exactly the 32 CMR bytes,
tagged with the Simplicity leaf version. -/
def script_ver (cmr : List Nat) : List Nat × Nat := (cmr, leafVersion)

/-- Interface to the external tagged-hash and EC primitives consumed by the
taproot construction: `tapLeafHash version script` is the taproot leaf hash
(the Merkle root of the one-leaf tree), and `tapTweakKey internal root` is the
x-only output key produced by tweaking `internal` with the tap-tweak of
`root` (the computation inside `Address::p2tr`). -/
structure ECLib where
  tapLeafHash : Nat → List Nat → List Nat
  tapTweakKey : Nat → Option (List Nat) → Nat

/-- The data of `TaprootSpendInfo` used by `elements_address`. -/
structure SpendInfo where
  internal_key : Nat
  merkle_root : Option (List Nat)
deriving DecidableEq, Repr

/-- Translation of `taproot_spend_info`: a fresh builder, one leaf at depth 0
holding the CMR bytes with the Simplicity leaf version, finalized with the
unspendable internal key.  A fresh builder with a single depth-0 leaf is a
complete tree, so `add_leaf_with_ver` and `finalize` cannot fail here; the
only failure branch is an invalid internal key, modelled as `none`. -/
def taproot_spend_info (E : ECLib) (cmr : List Nat) : Option SpendInfo :=
  match unspendable_internal_key with
  | none => none
  | some k =>
    let (script, ver) := script_ver cmr
    some ⟨k, some (E.tapLeafHash ver script)⟩

/-- Network address parameters (`elements::AddressParams`). -/
structure AddressParams where
  p2pkhVer : Nat
  p2shVer : Nat
  blindedVer : Nat
  bechHrp : String
  blechHrp : String
deriving DecidableEq, Repr

/-- `AddressParams::LIQUID`. -/
def liquidParams : AddressParams := ⟨57, 39, 12, "ex", "lq"⟩

/-- `AddressParams::LIQUID_TESTNET`. -/
def liquidTestnetParams : AddressParams := ⟨36, 19, 23, "tex", "tlq"⟩

/-- An Elements address value: network parameters, a version-1 witness program
carrying the tweaked output key, and an optional blinder. -/
structure Address where
  params : AddressParams
  witnessVersion : Nat
  outputKey : Nat
  blinder : Option Nat
deriving DecidableEq, Repr

/-- Translation of `elements_address`: take the spend info, then
`Address::p2tr` with the info's internal key and merkle root, no blinder, and
the given network parameters. -/
def elements_address (E : ECLib) (cmr : List Nat) (params : AddressParams) :
    Option Address :=
  match taproot_spend_info E cmr with
  | none => none
  | some info =>
    some ⟨params, 1, E.tapTweakKey info.internal_key info.merkle_root, none⟩

set_option maxRecDepth 4000 in
theorem unspendable_internal_key_some :
    unspendable_internal_key = some (bytesToNat unspendableInternalKeyBytes) := by
  unfold unspendable_internal_key
  rw [if_pos (by decide)]

set_option maxRecDepth 4000 in
/-- C6: address derivation is total over every commitment identity (the
internal-key construction succeeds because the fixed key bytes are a valid
x-only key, and the one-leaf tree build and finalization have no failure
branch), it is a deterministic function of the identity and the network
parameters, and the Liquid and Liquid-testnet parameter sets give different
addresses for the same identity. -/
theorem address_derivation_total_deterministic (E : ECLib) (cmr : List Nat)
    (params : AddressParams) :
    (∃ a, elements_address E cmr params = some a) ∧
    (∀ cmr2 params2, cmr = cmr2 → params = params2 →
      elements_address E cmr params = elements_address E cmr2 params2) ∧
    elements_address E cmr liquidParams ≠ elements_address E cmr liquidTestnetParams := by
  refine ⟨?_, ?_, ?_⟩
  · exact ⟨_, by rw [elements_address, taproot_spend_info, unspendable_internal_key_some]⟩
  · rintro cmr2 params2 rfl rfl
    rfl
  · rw [elements_address, elements_address, taproot_spend_info,
      unspendable_internal_key_some]
    intro h
    simp only [Option.some.injEq, Address.mk.injEq] at h
    exact absurd h.1 (by decide)

/-- Witness for C6: the theorem evaluated at a concrete external behavior and
a concrete identity. -/
theorem address_derivation_total_deterministic_witness :
    (∃ a, elements_address ⟨fun _ _ => [0], fun _ _ => 0⟩ (List.replicate 32 171)
      liquidParams = some a) ∧
    (elements_address ⟨fun _ _ => [0], fun _ _ => 0⟩ (List.replicate 32 171)
        liquidParams =
      elements_address ⟨fun _ _ => [0], fun _ _ => 0⟩ (List.replicate 32 171)
        liquidParams) ∧
    (elements_address ⟨fun _ _ => [0], fun _ _ => 0⟩ (List.replicate 32 171)
        liquidParams ≠
      elements_address ⟨fun _ _ => [0], fun _ _ => 0⟩ (List.replicate 32 171)
        liquidTestnetParams) :=
  ⟨(address_derivation_total_deterministic ⟨fun _ _ => [0], fun _ _ => 0⟩
      (List.replicate 32 171) liquidParams).1,
   (address_derivation_total_deterministic ⟨fun _ _ => [0], fun _ _ => 0⟩
      (List.replicate 32 171) liquidParams).2.1 (List.replicate 32 171)
      liquidParams rfl rfl,
   (address_derivation_total_deterministic ⟨fun _ _ => [0], fun _ _ => 0⟩
      (List.replicate 32 171) liquidParams).2.2⟩

/-! ## Sighash assembler

Translated from `exec_inner` in `src/hal_simplicity/src/cmd/simplicity/sighash.rs`
(lines 136-237).  Decimal `u32` parsing and 64-hex-character CMR parsing are
embedded concretely; transaction deserialization, control-block decoding,
block-hash parsing, key/signature parsing, key derivation, the sighash
computation of the signature-hash library, and Schnorr sign/verify are
external and appear as the fields of `SigLib`.  The `assert_eq!` on the
input/UTXO counts is modelled by the dedicated outcome `assertFail`, distinct
from every structured error. -/

/-- Rust `u32::from_str`: an optional leading plus sign, then at least one
decimal digit, rejecting values of 2^32 or more. -/
def decDigit (c : Char) : Option Nat :=
  if 48 ≤ c.toNat ∧ c.toNat ≤ 57 then some (c.toNat - 48) else none

/-- Accumulate decimal digits left to right. -/
def parseDigits : List Char → Nat → Option Nat
  | [], acc => some acc
  | c :: rest, acc =>
    match decDigit c with
    | some d => parseDigits rest (10 * acc + d)
    | none => none

/-- Translation of `input_idx.parse::<u32>()`. -/
def parseU32 (s : String) : Option Nat :=
  match (match s.data with | '+' :: rest => rest | l => l) with
  | [] => none
  | chars =>
    match parseDigits chars 0 with
    | some n => if n < 2 ^ 32 then some n else none
    | none => none

/-- Translation of `cmr.parse::<Cmr>()`: exactly 64 hex characters giving 32
bytes. -/
def parseCmrHex (s : String) : Option (List Nat) :=
  match hexDecodeStr s with
  | some l => if l.length = 32 then some l else none
  | none => none

/-- An Elements transaction as far as the assembler observes it: its input
list (only the count matters to the assertion) and the rest of its content,
opaque. -/
structure ElTx where
  input : List Nat
  rest : Nat
deriving DecidableEq, Repr

/-- The arguments of `ElementsEnv::new` (sighash.rs lines 181-189): the
transaction, the spent-output list, the input index, the CMR, the control
block, the always-`none` annex placeholder, and the genesis hash. -/
structure Env where
  tx : ElTx
  utxos : List ElementsUtxo
  inputIdx : Nat
  cmr : List Nat
  controlBlock : Nat
  annex : Option Nat
  genesisHash : List Nat

/-- Interface to the external libraries consumed by `exec_inner`. -/
structure SigLib where
  deserializeTx : List Nat → Option ElTx
  cbFromSlice : List Nat → Option Nat
  parseBlockHash : String → Option (List Nat)
  amount : AmountLib
  parsePubKey : String → Option Nat
  parseSig : String → Option Nat
  parseSecKey : String → Option Nat
  pubkeyOf : Nat → Nat
  showPubKey : Nat → String
  sighashAll : Env → Nat
  signSchnorr : Nat → Nat → Nat
  verifySchnorr : Nat → Nat → Nat → Bool

/-- The result record serialized by the sighash command. -/
structure SighashInfo where
  sighash : Nat
  signature : Option Nat
  valid_signature : Option Bool
deriving DecidableEq, Repr

/-- Observable outcome of `exec_inner`: a result, a structured error, or the
`assert_eq!` failure (a panic, not a recoverable error value). -/
inductive Outcome where
  | ok (info : SighashInfo)
  | err (e : Error)
  | assertFail
deriving DecidableEq, Repr

/-- The fixed default genesis hash (sighash.rs lines 173-178). -/
def defaultGenesisHash : List Nat :=
  [0xc1, 0xb1, 0x6a, 0xe2, 0x4f, 0x24, 0x23, 0xae, 0xa2, 0xea, 0x34, 0x55, 0x22, 0x92,
   0x79, 0x3b, 0x5b, 0x5e, 0x82, 0x99, 0x9a, 0x1e, 0xed, 0x81, 0xd5, 0x6a, 0xee, 0x52,
   0x8e, 0xda, 0x71, 0xa7]

/-- The values produced by the parsing stages of `exec_inner` up to and
including the spent-output list (sighash.rs lines 152-167). -/
structure Stage where
  tx : ElTx
  inputIdx : Nat
  cmr : List Nat
  controlBlock : Nat
  utxos : List ElementsUtxo
deriving DecidableEq, Repr

/-- `input_utxos.iter().map(parse_elements_utxo).collect::<Result<Vec<_>, _>>()`:
first error wins. -/
def parseUtxoList (A : AmountLib) : List String → Except Error (List ElementsUtxo)
  | [] => .ok []
  | s :: rest =>
    match parse_elements_utxo A s with
    | .error e => .error e
    | .ok u =>
      match parseUtxoList A rest with
      | .error e => .error e
      | .ok us => .ok (u :: us)

/-- The parsing stages of `exec_inner` before the count assertion, in source
order with the source's context labels. -/
def parseStages (L : SigLib) (tx_hex input_idx cmr control_block : String)
    (input_utxos : List String) : Except Error Stage :=
  match hexDecodeStr tx_hex with
  | none => .error ⟨"parsing transaction hex", ""⟩
  | some txBytes =>
    match L.deserializeTx txBytes with
    | none => .error ⟨"decoding transaction", ""⟩
    | some tx =>
      match parseU32 input_idx with
      | none => .error ⟨"parsing input-idx", ""⟩
      | some idx =>
        match parseCmrHex cmr with
        | none => .error ⟨"parsing cmr", ""⟩
        | some cmrv =>
          match hexDecodeStr control_block with
          | none => .error ⟨"parsing control block hex", ""⟩
          | some cbBytes =>
            match L.cbFromSlice cbBytes with
            | none => .error ⟨"decoding control block", ""⟩
            | some cb =>
              match parseUtxoList L.amount input_utxos with
              | .error e => .error e
              | .ok utxos => .ok ⟨tx, idx, cmrv, cb, utxos⟩

/-- The genesis-hash resolution of `exec_inner` (lines 171-179): parse when
supplied, else the fixed default. -/
def resolveGenesis (L : SigLib) : Option String → Except Error (List Nat)
  | some s =>
    match L.parseBlockHash s with
    | some h => .ok h
    | none => .error ⟨"parsing genesis hash", ""⟩
  | none => .ok defaultGenesisHash

/-- The four-way public-key/signature match of `exec_inner` (lines 191-204). -/
def parsePkSig (L : SigLib) (public_key signature : Option String) :
    Except Error (Option Nat × Option Nat) :=
  match public_key, signature with
  | some pk, none =>
    match L.parsePubKey pk with
    | some pkv => .ok (some pkv, none)
    | none => .error ⟨"parsing public key", ""⟩
  | some pk, some sig =>
    match L.parsePubKey pk with
    | none => .error ⟨"parsing public key", ""⟩
    | some pkv =>
      match L.parseSig sig with
      | none => .error ⟨"parsing signature", ""⟩
      | some sigv => .ok (some pkv, some sigv)
  | none, some _ =>
    .error ⟨"reading cli arguments",
      "if signature is provided, public-key must be provided as well"⟩
  | none, none => .ok (none, none)

/-- The key-consistency error message of `exec_inner` (lines 219-224). -/
def mismatchMsg (L : SigLib) (derived supplied : Nat) : String :=
  "secret key had public key " ++ L.showPubKey derived ++
    ", but was passed explicit public key " ++ L.showPubKey supplied

/-- The `signature` field computation of the result record (lines 210-231):
parse the secret key, check consistency against an explicit public key when
one was supplied, then sign. -/
def signatureField (L : SigLib) (secret_key : Option String) (pk : Option Nat)
    (sighash : Nat) : Except Error (Option Nat) :=
  match secret_key with
  | none => .ok none
  | some sks =>
    match L.parseSecKey sks with
    | none => .error ⟨"parsing secret key hex", ""⟩
    | some sk =>
      match pk with
      | some pkv =>
        if pkv ≠ L.pubkeyOf sk then
          .error ⟨"checking secret key and public key consistency",
            mismatchMsg L (L.pubkeyOf sk) pkv⟩
        else .ok (some (L.signSchnorr sighash sk))
      | none => .ok (some (L.signSchnorr sighash sk))

/-- The `valid_signature` field computation (lines 232-235). -/
def validSignature (L : SigLib) (pk sig : Option Nat) (sighash : Nat) : Option Bool :=
  match pk, sig with
  | some pkv, some sigv => some (L.verifySchnorr sigv sighash pkv)
  | _, _ => none

/-- `ElementsEnv::new` with the always-`none` annotated-identity placeholder. -/
def mkEnv (st : Stage) (gh : List Nat) : Env :=
  ⟨st.tx, st.utxos, st.inputIdx, st.cmr, st.controlBlock, none, gh⟩

/-- Translation of `exec_inner` (sighash.rs lines 136-237). -/
def exec_inner (L : SigLib) (tx_hex input_idx cmr control_block : String)
    (genesis_hash secret_key public_key signature : Option String)
    (input_utxos : List String) : Outcome :=
  match parseStages L tx_hex input_idx cmr control_block input_utxos with
  | .error e => .err e
  | .ok st =>
    if st.utxos.length = st.tx.input.length then
      match resolveGenesis L genesis_hash with
      | .error e => .err e
      | .ok gh =>
        match parsePkSig L public_key signature with
        | .error e => .err e
        | .ok (pk, sig) =>
          match signatureField L secret_key pk (L.sighashAll (mkEnv st gh)) with
          | .error e => .err e
          | .ok sigOut =>
            .ok ⟨L.sighashAll (mkEnv st gh), sigOut,
              validSignature L pk sig (L.sighashAll (mkEnv st gh))⟩
    else .assertFail

/-- Inversion: a successful `exec_inner` pins down the parsing stages, the
count check, the genesis hash, and the returned sighash field. -/
theorem exec_inner_ok_sighash {L : SigLib} {tx_hex input_idx cmr control_block : String}
    {genesis_hash secret_key public_key signature : Option String}
    {input_utxos : List String} {i : SighashInfo}
    (h : exec_inner L tx_hex input_idx cmr control_block genesis_hash secret_key
      public_key signature input_utxos = .ok i) :
    ∃ st gh, parseStages L tx_hex input_idx cmr control_block input_utxos = .ok st ∧
      st.utxos.length = st.tx.input.length ∧
      resolveGenesis L genesis_hash = .ok gh ∧
      i.sighash = L.sighashAll (mkEnv st gh) := by
  unfold exec_inner at h
  rcases hst : parseStages L tx_hex input_idx cmr control_block input_utxos with e | st <;>
    rw [hst] at h <;> dsimp only at h
  · exact absurd h (by simp)
  · split at h
    · next hlen =>
      rcases hG : resolveGenesis L genesis_hash with e | gh <;> rw [hG] at h <;>
        dsimp only at h
      · exact absurd h (by simp)
      · rcases hps : parsePkSig L public_key signature with e | pr <;> rw [hps] at h <;>
          try dsimp only at h
        · exact absurd h (by simp)
        · rcases pr with ⟨pk, sig⟩
          dsimp only at h
          rcases hsf : signatureField L secret_key pk (L.sighashAll (mkEnv st gh)) with e | so <;>
            rw [hsf] at h <;> try dsimp only at h
          · exact absurd h (by simp)
          · refine ⟨st, gh, rfl, hlen, rfl, ?_⟩
            rw [← Outcome.ok.inj h]
    · exact absurd h (by simp)

/-- Inversion for a call with no key material: the result record is the bare
sighash with no signature and no verification verdict. -/
theorem exec_inner_none_keys_ok {L : SigLib} {tx_hex input_idx cmr control_block : String}
    {genesis_hash : Option String} {input_utxos : List String} {base : SighashInfo}
    (h : exec_inner L tx_hex input_idx cmr control_block genesis_hash none none none
      input_utxos = .ok base) :
    ∃ st gh, parseStages L tx_hex input_idx cmr control_block input_utxos = .ok st ∧
      st.utxos.length = st.tx.input.length ∧
      resolveGenesis L genesis_hash = .ok gh ∧
      base = ⟨L.sighashAll (mkEnv st gh), none, none⟩ := by
  unfold exec_inner at h
  rcases hst : parseStages L tx_hex input_idx cmr control_block input_utxos with e | st <;>
    rw [hst] at h <;> dsimp only at h
  · exact absurd h (by simp)
  · split at h
    · next hlen =>
      rcases hG : resolveGenesis L genesis_hash with e | gh <;> rw [hG] at h <;>
        dsimp only at h
      · exact absurd h (by simp)
      · dsimp only [parsePkSig, signatureField, validSignature] at h
        exact ⟨st, gh, rfl, hlen, rfl, (Outcome.ok.inj h).symm⟩
    · exact absurd h (by simp)

/-- Once the stages, the count check and the genesis resolution are fixed,
`exec_inner` is the key-material tail. -/
theorem exec_inner_rebuild {L : SigLib} {tx_hex input_idx cmr control_block : String}
    {genesis_hash : Option String} {input_utxos : List String} {st : Stage}
    {gh : List Nat} (secret_key public_key signature : Option String)
    (hst : parseStages L tx_hex input_idx cmr control_block input_utxos = .ok st)
    (hlen : st.utxos.length = st.tx.input.length)
    (hG : resolveGenesis L genesis_hash = .ok gh) :
    exec_inner L tx_hex input_idx cmr control_block genesis_hash secret_key
      public_key signature input_utxos =
      (match parsePkSig L public_key signature with
      | .error e => .err e
      | .ok (pk, sig) =>
        match signatureField L secret_key pk (L.sighashAll (mkEnv st gh)) with
        | .error e => .err e
        | .ok sigOut =>
          .ok ⟨L.sighashAll (mkEnv st gh), sigOut,
            validSignature L pk sig (L.sighashAll (mkEnv st gh))⟩) := by
  unfold exec_inner
  rw [hst]
  dsimp only
  rw [if_pos hlen, hG]

/-- C7: relative to a successful key-free baseline call, supplying a signature
without a public key is a hard error (no digest is returned); supplying a
public key without a signature succeeds with no verification verdict; and
supplying a public key and a signature but no secret key succeeds with no
computed signature and a `valid_signature` verdict that is exactly the Schnorr
verification of the supplied signature against the assembled digest. -/
theorem sighash_key_option_handling (L : SigLib)
    (tx_hex input_idx cmr control_block : String) (genesis_hash : Option String)
    (input_utxos : List String) (base : SighashInfo) (sigstr pkstr : String)
    (pkv sigv : Nat)
    (hbase : exec_inner L tx_hex input_idx cmr control_block genesis_hash none none
      none input_utxos = .ok base)
    (hpk : L.parsePubKey pkstr = some pkv)
    (hsig : L.parseSig sigstr = some sigv) :
    (exec_inner L tx_hex input_idx cmr control_block genesis_hash none none
      (some sigstr) input_utxos =
      .err ⟨"reading cli arguments",
        "if signature is provided, public-key must be provided as well"⟩) ∧
    (exec_inner L tx_hex input_idx cmr control_block genesis_hash none (some pkstr)
      none input_utxos = .ok ⟨base.sighash, none, none⟩) ∧
    (exec_inner L tx_hex input_idx cmr control_block genesis_hash none (some pkstr)
      (some sigstr) input_utxos =
      .ok ⟨base.sighash, none, some (L.verifySchnorr sigv base.sighash pkv)⟩) := by
  obtain ⟨st, gh, hst, hlen, hG, hbe⟩ := exec_inner_none_keys_ok hbase
  have hb : base.sighash = L.sighashAll (mkEnv st gh) := by rw [hbe]
  refine ⟨?_, ?_, ?_⟩
  · rw [exec_inner_rebuild none none (some sigstr) hst hlen hG]
    rfl
  · rw [exec_inner_rebuild none (some pkstr) none hst hlen hG]
    dsimp only [parsePkSig]
    rw [hpk]
    dsimp only [signatureField, validSignature]
    rw [hb]
    try rfl
  · rw [exec_inner_rebuild none (some pkstr) (some sigstr) hst hlen hG]
    dsimp only [parsePkSig]
    rw [hpk]
    dsimp only
    rw [hsig]
    dsimp only [signatureField, validSignature]
    rw [hb]
    try rfl

/-- C8: relative to a successful key-free baseline call, supplying a secret
key together with an explicit public key that differs from the key derived
from the secret is a hard error carrying the message that names both keys,
and no signature is produced; when the two agree, signing proceeds and the
result carries the Schnorr signature over the digest. -/
theorem sighash_key_consistency (L : SigLib)
    (tx_hex input_idx cmr control_block : String) (genesis_hash : Option String)
    (input_utxos : List String) (base : SighashInfo) (skstr pkstr : String)
    (skv pkv : Nat)
    (hbase : exec_inner L tx_hex input_idx cmr control_block genesis_hash none none
      none input_utxos = .ok base)
    (hsk : L.parseSecKey skstr = some skv)
    (hpk : L.parsePubKey pkstr = some pkv) :
    (pkv ≠ L.pubkeyOf skv →
      exec_inner L tx_hex input_idx cmr control_block genesis_hash (some skstr)
        (some pkstr) none input_utxos =
        .err ⟨"checking secret key and public key consistency",
          mismatchMsg L (L.pubkeyOf skv) pkv⟩) ∧
    (pkv = L.pubkeyOf skv →
      exec_inner L tx_hex input_idx cmr control_block genesis_hash (some skstr)
        (some pkstr) none input_utxos =
        .ok ⟨base.sighash, some (L.signSchnorr base.sighash skv), none⟩) := by
  obtain ⟨st, gh, hst, hlen, hG, hbe⟩ := exec_inner_none_keys_ok hbase
  have hb : base.sighash = L.sighashAll (mkEnv st gh) := by rw [hbe]
  constructor
  · intro hne
    rw [exec_inner_rebuild (some skstr) (some pkstr) none hst hlen hG]
    dsimp only [parsePkSig]
    rw [hpk]
    dsimp only [signatureField]
    rw [hsk]
    dsimp only
    rw [if_pos hne]
    try rfl
  · intro heq
    rw [exec_inner_rebuild (some skstr) (some pkstr) none hst hlen hG]
    dsimp only [parsePkSig]
    rw [hpk]
    dsimp only [signatureField]
    rw [hsk]
    dsimp only
    rw [if_neg (not_not_intro heq)]
    dsimp only [validSignature]
    rw [hb]
    try rfl

/-- C9: once the parsing stages have succeeded, a mismatch between the parsed
spent-output count and the transaction's input count makes `exec_inner` end in
the assertion failure (a panic, not a recoverable structured error value), and
under the equal-counts precondition the assertion branch is unreachable:
assembly proceeds to a result or a structured error. -/
theorem sighash_count_assertion (L : SigLib)
    (tx_hex input_idx cmr control_block : String)
    (genesis_hash secret_key public_key signature : Option String)
    (input_utxos : List String) (st : Stage)
    (hst : parseStages L tx_hex input_idx cmr control_block input_utxos = .ok st) :
    (st.utxos.length ≠ st.tx.input.length →
      exec_inner L tx_hex input_idx cmr control_block genesis_hash secret_key
        public_key signature input_utxos = .assertFail) ∧
    (st.utxos.length = st.tx.input.length →
      exec_inner L tx_hex input_idx cmr control_block genesis_hash secret_key
        public_key signature input_utxos ≠ .assertFail) := by
  constructor
  · intro hne
    unfold exec_inner
    rw [hst]
    dsimp only
    rw [if_neg hne]
  · intro heq
    unfold exec_inner
    rw [hst]
    dsimp only
    rw [if_pos heq]
    rcases resolveGenesis L genesis_hash with e | gh
    · simp
    · dsimp only
      rcases parsePkSig L public_key signature with e | ⟨pk, sig⟩
      · simp
      · dsimp only
        split <;> simp

/-- C10: the sighash field of a successful call does not depend on the
secret-key, public-key or signature arguments: two successful calls agreeing
on the transaction, input index, CMR, control block, genesis hash and UTXO
descriptors return the same sighash. -/
theorem sighash_key_material_independence (L : SigLib)
    (tx_hex input_idx cmr control_block : String)
    (genesis_hash sk1 pk1 sig1 sk2 pk2 sig2 : Option String)
    (input_utxos : List String) (i1 i2 : SighashInfo)
    (h1 : exec_inner L tx_hex input_idx cmr control_block genesis_hash sk1 pk1 sig1
      input_utxos = .ok i1)
    (h2 : exec_inner L tx_hex input_idx cmr control_block genesis_hash sk2 pk2 sig2
      input_utxos = .ok i2) :
    i1.sighash = i2.sighash := by
  obtain ⟨st1, gh1, hst1, _, hG1, hs1⟩ := exec_inner_ok_sighash h1
  obtain ⟨st2, gh2, hst2, _, hG2, hs2⟩ := exec_inner_ok_sighash h2
  rw [hst1] at hst2
  rw [hG1] at hG2
  rw [hs1, hs2, Except.ok.inj hst2, Except.ok.inj hG2]

/-- A 64-character all-zero hex string (a syntactically valid CMR). -/
def zeros64 : String :=
  "0000000000000000000000000000000000000000000000000000000000000000"

/-- A concrete external-library behavior for the sighash witnesses: every
stage parses, the transaction has no inputs, the derived public key of the
toy secret key 9 is 10, and the only public-key string parsing to 10 is
pk10. -/
def toySigLib : SigLib where
  deserializeTx := fun _ => some ⟨[], 0⟩
  cbFromSlice := fun _ => some 0
  parseBlockHash := fun _ => some []
  amount := toyAmountLib
  parsePubKey := fun s => if s = "pk10" then some 10 else some 2
  parseSig := fun _ => some 5
  parseSecKey := fun _ => some 9
  pubkeyOf := fun k => k + 1
  showPubKey := fun k => if k = 10 then "PK10" else "PKx"
  sighashAll := fun _ => 77
  signSchnorr := fun h k => h + k
  verifySchnorr := fun _ _ _ => true

/-- Witness for C7: concrete signature-without-key error, key-without-signature
success with no verdict, and key-plus-signature success with a verdict and no
computed signature. -/
theorem sighash_key_option_handling_witness :
    (exec_inner toySigLib "" "0" zeros64 "" none none none (some "s") [] =
      .err ⟨"reading cli arguments",
        "if signature is provided, public-key must be provided as well"⟩) ∧
    (exec_inner toySigLib "" "0" zeros64 "" none none (some "pk10") none [] =
      .ok ⟨77, none, none⟩) ∧
    (exec_inner toySigLib "" "0" zeros64 "" none none (some "pk10") (some "s") [] =
      .ok ⟨77, none, some true⟩) :=
  sighash_key_option_handling toySigLib "" "0" zeros64 "" none [] ⟨77, none, none⟩
    "s" "pk10" 10 5 (by decide) (by decide) (by decide)

/-- Witness for C8: a concrete mismatched pair is a consistency error naming
both keys, and a concrete matching pair signs. -/
theorem sighash_key_consistency_witness :
    (exec_inner toySigLib "" "0" zeros64 "" none (some "sk") (some "pkB") none [] =
      .err ⟨"checking secret key and public key consistency",
        mismatchMsg toySigLib 10 2⟩) ∧
    (exec_inner toySigLib "" "0" zeros64 "" none (some "sk") (some "pk10") none [] =
      .ok ⟨77, some 86, none⟩) ∧
    mismatchMsg toySigLib 10 2 =
      "secret key had public key PK10, but was passed explicit public key PKx" :=
  ⟨(sighash_key_consistency toySigLib "" "0" zeros64 "" none [] ⟨77, none, none⟩
      "sk" "pkB" 9 2 (by decide) (by decide) (by decide)).1 (by decide),
   (sighash_key_consistency toySigLib "" "0" zeros64 "" none [] ⟨77, none, none⟩
      "sk" "pk10" 9 10 (by decide) (by decide) (by decide)).2 (by decide),
   by decide⟩

/-- Witness for C9: one concrete descriptor against a zero-input transaction
trips the assertion, and the empty descriptor list does not. -/
theorem sighash_count_assertion_witness :
    (exec_inner toySigLib "" "0" zeros64 "" none none none none
      ["aa:0000000000000000000000000000000000000000000000000000000000000000:5"] =
      .assertFail) ∧
    (exec_inner toySigLib "" "0" zeros64 "" none none none none [] ≠ .assertFail) :=
  ⟨(sighash_count_assertion toySigLib "" "0" zeros64 "" none none none none
      ["aa:0000000000000000000000000000000000000000000000000000000000000000:5"]
      ⟨⟨[], 0⟩, 0, List.replicate 32 0, 0,
        [⟨[170], .explicit (List.replicate 32 0), .explicit 5⟩]⟩
      (by decide)).1 (by decide),
   (sighash_count_assertion toySigLib "" "0" zeros64 "" none none none none []
      ⟨⟨[], 0⟩, 0, List.replicate 32 0, 0, []⟩ (by decide)).2 (by decide)⟩

/-- Witness for C10: two concrete successful calls with different key material
agree on the sighash field. -/
theorem sighash_key_material_independence_witness :
    (⟨77, none, none⟩ : SighashInfo).sighash = (⟨77, some 86, none⟩ : SighashInfo).sighash :=
  sighash_key_material_independence toySigLib "" "0" zeros64 "" none
    none (some "pk10") none (some "sk") none none [] ⟨77, none, none⟩
    ⟨77, some 86, none⟩ (by decide) (by decide)

end HalSimplicity
